import Mathlib

/-!
Shallow embedding of the realtime voice relay of `propio_one`
(`backend/app/routers/websocket.py` and
`backend/app/services/realtime_service.py`).

Modelling conventions:
* Raw audio bytes are `List Nat`.
* Python's `base64.b64decode` (stdlib, may raise `binascii.Error`) is a
  parameter `dec : String → Option Bytes`; `base64.b64encode` is a parameter
  `enc : Bytes → String`.
* The upstream socket send (`self.ws.send`) may raise mid-session; whether the
  k-th upstream send succeeds is an oracle `upOk : Nat → Bool`.  Likewise the
  client-socket write in `handle_openai` is an oracle `sendOk : Nat → Bool`.
* Inbound frames are modelled after the observable branches of the Python
  dispatch; a frame whose `json.loads` (or attribute access on the decoded
  value) raises is one constructor.
-/

namespace Propio

/-- Raw audio bytes (`bytes` in Python). -/
abbrev Bytes := List Nat

/-- One inbound client frame, as seen by `handle_client` after
`websocket.receive_text()`:
* `audioChunk data` — a JSON object `{"type": "audio_chunk", "data": data}`
  (a missing `"data"` field is `data = ""`, from `data.get("data", "")`);
* `audioComplete` — `{"type": "audio_complete"}`;
* `unknownType` — a JSON object whose `"type"` is neither of the two
  (no `elif` matches, the loop just continues);
* `malformedJson` — a frame for which `json.loads(data_raw)` (or the
  subsequent `.get` on a non-dict value) raises. -/
inductive ClientFrame
  | audioChunk (data : String)
  | audioComplete
  | unknownType
  | malformedJson
deriving DecidableEq, Repr

/-- One upstream call successfully issued by `handle_client` through
`RealtimeService`: `send_audio` with the decoded bytes, or `commit_audio`. -/
inductive UpCall
  | sendAudio (chunk : Bytes)
  | commitAudio
deriving DecidableEq, Repr

/-- Returns `true` exactly on `sendAudio` calls. -/
def UpCall.isSend : UpCall → Bool
  | .sendAudio _ => true
  | .commitAudio => false

/-- How `handle_client`'s read loop ended:
* `disconnected` — `websocket.receive_text()` raised `WebSocketDisconnect`
  (modelled as the input list being exhausted);
* `faulted` — any other exception escaped the `while` loop (malformed JSON,
  invalid base64, or an upstream send failure) and was caught by the
  `except Exception` handler *outside* the loop, which only logs. -/
inductive ClientLoopExit
  | disconnected
  | faulted
deriving DecidableEq, Repr

/-- Function `handle_client(websocket, service)` from `websocket.py`.

Arguments: `dec` models `base64.b64decode`; `upOk k` tells whether the k-th
upstream send (`service.send_audio` / `service.commit_audio`) succeeds; the
`Nat` arguments are the local `audio_chunks_received` counter and the upstream
send index.  Returns the trace of successfully issued upstream calls, the last
value of `audio_chunks_received`, and how the loop exited.

Faithful points: the `try`/`except` wraps the whole `while True`, so any
exception (decode failure or send failure) terminates the loop; on
`audio_complete` the commit is issued only when the counter is positive, and
the counter is reset to 0 only after a successful commit; an unrecognized
message type matches no branch and the loop continues. -/
def handle_client (dec : String → Option Bytes) (upOk : Nat → Bool) :
    List ClientFrame → Nat → Nat → List UpCall × Nat × ClientLoopExit
  | [], counter, _ => ([], counter, .disconnected)
  | .audioChunk d :: rest, counter, k =>
    match dec d with
    | none => ([], counter, .faulted)
    | some bs =>
      if upOk k then
        let r := handle_client dec upOk rest (counter + 1) (k + 1)
        (.sendAudio bs :: r.1, r.2)
      else ([], counter, .faulted)
  | .audioComplete :: rest, counter, k =>
    if counter > 0 then
      if upOk k then
        let r := handle_client dec upOk rest 0 (k + 1)
        (.commitAudio :: r.1, r.2)
      else ([], counter, .faulted)
    else handle_client dec upOk rest counter k
  | .unknownType :: rest, counter, k => handle_client dec upOk rest counter k
  | .malformedJson :: _, counter, _ => ([], counter, .faulted)

/-- A concrete stand-in for the `base64.b64decode` parameter, used only to
instantiate witnesses: it fails on the string `"bad"` and otherwise returns
the code points of the string. -/
def demoDecode (s : String) : Option Bytes :=
  if s = "bad" then none else some (s.data.map Char.toNat)

/-- One successfully parsed upstream frame, as seen inside
`listen_for_events` after `event = json.loads(message)`:
`etype` is `event.get("type")` (`none` when the key is absent), `transcript`
is `event.get("transcript", "")`, `delta` is `event.get("delta", "")`, and
`errorMessage` is `event.get("error", {}).get("message", "Unknown error")`. -/
structure UpEvent where
  etype : Option String
  transcript : String
  delta : String
  errorMessage : String
deriving DecidableEq, Repr

/-- One inbound upstream frame: either it parses to an `UpEvent`, or
`json.loads(message)` raises with message `msg` (`str(e)`). -/
inductive UpFrame
  | frame (e : UpEvent)
  | unparsable (msg : String)
deriving DecidableEq, Repr

/-- A client-facing outbound envelope: exactly the dict shapes yielded by
`listen_for_events` (and the error dicts built in `websocket.py`), which
`handle_openai` serializes with `json.dumps` and writes to the client. -/
inductive Envelope
  | connectionEstablished
  | userTranscript (text : String)
  | agentTranscriptDelta (text : String)
  | agentTranscriptComplete (text : String)
  | audioDelta (audio : String)
  | audioComplete
  | responseComplete
  | interruption (message : String)
  | speechStarted
  | error (message : String)
deriving DecidableEq, Repr

/-- The upstream wire-event names that `listen_for_events`'s `elif` chain
recognizes (in dispatch order). -/
def recognizedEventTypes : List String :=
  ["session.created", "session.updated",
   "conversation.item.input_audio_transcription.completed",
   "response.output_audio_transcript.delta",
   "response.output_audio_transcript.done",
   "response.output_audio.delta", "response.output_audio.done",
   "response.done", "conversation.item.truncated",
   "input_audio_buffer.speech_started", "error"]

/-- The envelopes yielded for one parsed upstream frame: the `elif` chain of
`listen_for_events`.  `session.updated` is recognized but only logged; an
empty `response.output_audio.delta` payload is logged and not yielded
(`if audio_delta:`); anything else (including an absent `"type"`) falls to the
final `else`, which only logs. -/
def eventsOf (e : UpEvent) : List Envelope :=
  if e.etype = some "session.created" then [.connectionEstablished]
  else if e.etype = some "session.updated" then []
  else if e.etype = some "conversation.item.input_audio_transcription.completed" then
    [.userTranscript e.transcript]
  else if e.etype = some "response.output_audio_transcript.delta" then
    [.agentTranscriptDelta e.delta]
  else if e.etype = some "response.output_audio_transcript.done" then
    [.agentTranscriptComplete e.transcript]
  else if e.etype = some "response.output_audio.delta" then
    (if e.delta = "" then [] else [.audioDelta e.delta])
  else if e.etype = some "response.output_audio.done" then [.audioComplete]
  else if e.etype = some "response.done" then [.responseComplete]
  else if e.etype = some "conversation.item.truncated" then
    [.interruption "User interrupted AI"]
  else if e.etype = some "input_audio_buffer.speech_started" then [.speechStarted]
  else if e.etype = some "error" then [.error e.errorMessage]
  else []

/-- The `async for message in self.ws: ...` loop of
`RealtimeService.listen_for_events`, as the finite sequence of yielded
envelopes for a finite inbound frame sequence (the input list ends when the
transport closes).  The `try`/`except` wraps the whole `async for`, so a
frame whose `json.loads` raises escapes the loop; the handler yields one
`error` envelope carrying `str(e)` and the generator then returns —
subsequent frames are not processed. -/
def listen_for_events_loop : List UpFrame → List Envelope
  | [] => []
  | .frame e :: rest => eventsOf e ++ listen_for_events_loop rest
  | .unparsable msg :: _ => [.error msg]

/-- Function `handle_openai(websocket, service)` from `websocket.py`: consumes the
yielded envelopes one at a time and writes each with
`websocket.send_text(json.dumps(event))`.  `sendOk k` tells whether the k-th
write succeeds; a failed write hits the inner `except` and `break`s out of
the loop.  Returns the trace of envelopes successfully written to the
client, in write order. -/
def handle_openai (sendOk : Nat → Bool) : List Envelope → Nat → List Envelope
  | [], _ => []
  | e :: rest, k =>
    if sendOk k then e :: handle_openai sendOk rest (k + 1) else []

/-- The connection-relevant state of a `RealtimeService` instance: the
optional websocket handle `self.ws` (a `Nat` identifies the underlying
socket) and the `self.is_connected` flag. -/
structure RTState where
  ws : Option Nat
  is_connected : Bool
deriving DecidableEq, Repr

/-- An upstream wire message sent by the send-side operations of
`RealtimeService` (`self.ws.send(json.dumps({...}))`). -/
inductive WireMsg
  | inputAudioBufferAppend (audio_b64 : String)
  | inputAudioBufferCommit
  | conversationItemCreate (role text : String)
  | responseCreate
deriving DecidableEq, Repr

namespace RealtimeService

/-- A fresh `RealtimeService(...)`: `self.ws = None`, `self.is_connected = False`. -/
def initState : RTState := { ws := none, is_connected := false }

/-- Method `RealtimeService.connect`: the whole body is wrapped in `try`/`except`.
`openOk` models whether `websockets.connect` and the `session.update` send
both succeed; on success `self.ws` is set and `self.is_connected = True`,
returning `True`; on any exception the handler logs, sets
`self.is_connected = False` and returns `False` (the session-negotiation
payload itself is not modelled — no claim concerns its contents). -/
def connect (openOk : Bool) (s : RTState) : Bool × RTState :=
  if openOk then (true, { ws := some 0, is_connected := true })
  else (false, { ws := s.ws, is_connected := false })

/-- Method `RealtimeService.send_audio`: raises `RuntimeError("Not connected")` when
`self.ws` is unset, otherwise sends one `input_audio_buffer.append` message
whose `audio` field is `base64.b64encode(audio_bytes)` (modelled by `enc`).
The state is returned unchanged — the method mutates nothing. -/
def send_audio (enc : Bytes → String) (s : RTState) (audio_bytes : Bytes) :
    Except String (List WireMsg × RTState) :=
  match s.ws with
  | none => .error "Not connected"
  | some _ => .ok ([.inputAudioBufferAppend (enc audio_bytes)], s)

/-- Method `RealtimeService.commit_audio`: raises `RuntimeError("Not connected")`
when `self.ws` is unset, otherwise sends one `input_audio_buffer.commit`. -/
def commit_audio (s : RTState) : Except String (List WireMsg × RTState) :=
  match s.ws with
  | none => .error "Not connected"
  | some _ => .ok ([.inputAudioBufferCommit], s)

/-- Method `RealtimeService.create_conversation_item`: raises
`RuntimeError("Not connected")` when `self.ws` is unset, otherwise sends one
`conversation.item.create` whose item is a message with role `"system"`
(the `role` parameter is ignored by the body) and one `input_text` part. -/
def create_conversation_item (s : RTState) (text : String) :
    Except String (List WireMsg × RTState) :=
  match s.ws with
  | none => .error "Not connected"
  | some _ => .ok ([.conversationItemCreate "system" text], s)

/-- Method `RealtimeService.trigger_response`: raises `RuntimeError("Not connected")`
when `self.ws` is unset, otherwise sends one `response.create`. -/
def trigger_response (s : RTState) : Except String (List WireMsg × RTState) :=
  match s.ws with
  | none => .error "Not connected"
  | some _ => .ok ([.responseCreate], s)

/-- Method `RealtimeService.listen_for_events`: raises
`RuntimeError("Not connected")` when `self.ws` is unset, otherwise iterates
the socket as in `listen_for_events_loop`. -/
def listen_for_events (s : RTState) (frames : List UpFrame) :
    Except String (List Envelope) :=
  match s.ws with
  | none => .error "Not connected"
  | some _ => .ok (listen_for_events_loop frames)

/-- Method `RealtimeService.disconnect`: if `self.ws` is set, `await self.ws.close()`
and clear it; in all cases set `self.is_connected = False`.  Returns the list
of handles actually closed by this call together with the new state. -/
def disconnect (s : RTState) : List Nat × RTState :=
  match s.ws with
  | some h => ([h], { ws := none, is_connected := false })
  | none => ([], { ws := none, is_connected := false })

end RealtimeService

/-- The observable outcome of one `websocket_endpoint` session:
the envelopes written to the client socket in order, the upstream calls
issued by the client pipeline, how the client pipeline's loop exited
(`none` when the pipelines were never started), whether the two pipeline
tasks were started (`asyncio.gather` reached), and whether the client socket
ended up closed. -/
structure SessionResult where
  clientWrites : List Envelope
  upstreamCalls : List UpCall
  clientExit : Option ClientLoopExit
  pipelinesStarted : Bool
  clientClosed : Bool
deriving DecidableEq, Repr

/-- Function `websocket_endpoint(websocket)` from `websocket.py`.

After `websocket.accept()` a fresh service is built and `connect` is
awaited.  On `connect() = False` the endpoint writes one
`{"type": "error", "message": "Failed to connect to OpenAI Realtime API"}`
envelope, closes the client socket and returns — neither pipeline is
started.  On success the two pipelines run under `asyncio.gather`; both
swallow their own exceptions, so `gather` returns normally and the outer
`except` never fires mid-session.  `handle_client` writes nothing to the
client socket, so the client-write trace is exactly `handle_openai`'s;
the two pipelines share no counters, so their traces are independent and
are reported side by side.  The `finally` block always runs
`service.disconnect()`, and the socket is closed when the handler returns. -/
def websocket_endpoint (dec : String → Option Bytes) (upOk sendOk : Nat → Bool)
    (openOk : Bool) (clientFrames : List ClientFrame) (upFrames : List UpFrame) :
    SessionResult :=
  if (RealtimeService.connect openOk RealtimeService.initState).1 then
    let rc := handle_client dec upOk clientFrames 0 0
    { clientWrites := handle_openai sendOk (listen_for_events_loop upFrames) 0
      upstreamCalls := rc.1
      clientExit := some rc.2.2
      pipelinesStarted := true
      clientClosed := true }
  else
    { clientWrites := [.error "Failed to connect to OpenAI Realtime API"]
      upstreamCalls := []
      clientExit := none
      pipelinesStarted := false
      clientClosed := true }

/-! Helper lemmas. -/

/-- Running `handle_client` over a block of decodable `audio_chunk` frames
issues one `sendAudio` per chunk, in order, adds the block length to the
counter and to the send index, and then continues with the remaining
frames. -/
theorem handle_client_chunks (dec : String → Option Bytes) (upOk : Nat → Bool)
    (hup : ∀ k, upOk k = true) {strs : List String} {bs : List Bytes}
    (hdec : List.Forall₂ (fun d b => dec d = some b) strs bs) :
    ∀ (rest : List ClientFrame) (c k : Nat),
      handle_client dec upOk (List.map ClientFrame.audioChunk strs ++ rest) c k =
        (List.map UpCall.sendAudio bs
            ++ (handle_client dec upOk rest (c + strs.length) (k + strs.length)).1,
          (handle_client dec upOk rest (c + strs.length) (k + strs.length)).2) := by
  induction hdec with
  | nil => intro rest c k; simp
  | cons hd _ ih =>
    intro rest c k
    simp only [List.map_cons, List.cons_append, List.length_cons]
    rw [handle_client, hd]
    simp only [hup k, if_true]
    rw [ih rest (c + 1) (k + 1)]
    simp [Nat.add_comm, Nat.add_assoc, Nat.add_left_comm]

/-- Running `handle_client` on a decodable chunk block followed by one
`audio_complete`: one `sendAudio` per chunk in order, then one
`commitAudio` exactly when the block was nonempty; the counter ends at 0 and
the loop exits on client disconnect. -/
theorem handle_client_session (dec : String → Option Bytes) (upOk : Nat → Bool)
    (hup : ∀ k, upOk k = true) {strs : List String} {bs : List Bytes}
    (hdec : List.Forall₂ (fun d b => dec d = some b) strs bs) :
    handle_client dec upOk
        (List.map ClientFrame.audioChunk strs ++ [ClientFrame.audioComplete]) 0 0 =
      (List.map UpCall.sendAudio bs
          ++ (if 0 < strs.length then [UpCall.commitAudio] else []),
        0, ClientLoopExit.disconnected) := by
  rw [handle_client_chunks dec upOk hup hdec]
  by_cases h : 0 < strs.length
  · simp [handle_client, h, hup]
  · have h0 : strs.length = 0 := by omega
    simp [handle_client, h0]

/-- When every client-socket write succeeds, `handle_openai` writes its whole
input, element by element, in order. -/
theorem handle_openai_all_ok (sendOk : Nat → Bool) (hs : ∀ k, sendOk k = true) :
    ∀ (es : List Envelope) (k : Nat), handle_openai sendOk es k = es := by
  intro es
  induction es with
  | nil => intro k; rfl
  | cons e rest ih => intro k; simp [handle_openai, hs k, ih]

/-! Claim theorems. -/

/-- C1: for every sequence of decodable `audio_chunk` messages followed by one
`audio_complete` (with the upstream sends succeeding), `handle_client` issues
exactly one `send_audio` call per chunk, exactly one `commit_audio` call when
the pending-chunk counter is positive and none when it is zero, and the
counter ends reset to 0. -/
theorem handle_client_send_commit_counts (dec : String → Option Bytes)
    (upOk : Nat → Bool) (strs : List String) (bs : List Bytes)
    (hup : ∀ k, upOk k = true)
    (hdec : List.Forall₂ (fun d b => dec d = some b) strs bs) :
    ((handle_client dec upOk
        (List.map ClientFrame.audioChunk strs ++ [ClientFrame.audioComplete])
        0 0).1.countP UpCall.isSend = strs.length)
    ∧ ((handle_client dec upOk
        (List.map ClientFrame.audioChunk strs ++ [ClientFrame.audioComplete])
        0 0).1.count UpCall.commitAudio = if 0 < strs.length then 1 else 0)
    ∧ (handle_client dec upOk
        (List.map ClientFrame.audioChunk strs ++ [ClientFrame.audioComplete])
        0 0).2.1 = 0 := by
  have hlen := hdec.length_eq
  rw [handle_client_session dec upOk hup hdec]
  refine ⟨?_, ?_, rfl⟩
  · by_cases h : 0 < strs.length <;>
      simp [h, List.countP_append, List.countP_map, Function.comp_def,
        UpCall.isSend, ← hlen, List.countP_true]
  · by_cases h : 0 < strs.length <;>
      simp [h, List.count_append, List.count_eq_zero, List.mem_map,
        UpCall.isSend]

/-- C1 witness: two chunks then `audio_complete` give two `send_audio` calls,
one `commit_audio`, and a counter reset to 0. -/
theorem handle_client_send_commit_counts_witness :
    ((handle_client demoDecode (fun _ => true)
        (List.map ClientFrame.audioChunk ["A", "B"] ++ [ClientFrame.audioComplete])
        0 0).1.countP UpCall.isSend = 2)
    ∧ ((handle_client demoDecode (fun _ => true)
        (List.map ClientFrame.audioChunk ["A", "B"] ++ [ClientFrame.audioComplete])
        0 0).1.count UpCall.commitAudio = 1)
    ∧ (handle_client demoDecode (fun _ => true)
        (List.map ClientFrame.audioChunk ["A", "B"] ++ [ClientFrame.audioComplete])
        0 0).2.1 = 0 := by
  have h := handle_client_send_commit_counts demoDecode (fun _ => true)
    ["A", "B"] [[65], [66]] (fun _ => rfl)
    (.cons (by decide) (.cons (by decide) .nil))
  simpa using h

/-- C2: for every sequence of decodable `audio_chunk` messages followed by one
`audio_complete` (with the upstream sends succeeding), `handle_client`
forwards exactly the decoded payload bytes, one ordered `send_audio` call per
chunk in arrival order, followed by one `commit_audio` when at least one
chunk arrived. -/
theorem handle_client_forwards_in_order (dec : String → Option Bytes)
    (upOk : Nat → Bool) (strs : List String) (bs : List Bytes)
    (hup : ∀ k, upOk k = true)
    (hdec : List.Forall₂ (fun d b => dec d = some b) strs bs) :
    (handle_client dec upOk
        (List.map ClientFrame.audioChunk strs ++ [ClientFrame.audioComplete])
        0 0).1
      = List.map UpCall.sendAudio bs
          ++ (if 0 < strs.length then [UpCall.commitAudio] else []) := by
  rw [handle_client_session dec upOk hup hdec]

/-- C2 witness: chunks decoding to bytes `[65]` then `[66]` produce the exact
ordered trace `sendAudio [65]`, `sendAudio [66]`, `commitAudio`. -/
theorem handle_client_forwards_in_order_witness :
    (handle_client demoDecode (fun _ => true)
        (List.map ClientFrame.audioChunk ["A", "B"] ++ [ClientFrame.audioComplete])
        0 0).1
      = [UpCall.sendAudio [65], UpCall.sendAudio [66], UpCall.commitAudio] := by
  have h := handle_client_forwards_in_order demoDecode (fun _ => true)
    ["A", "B"] [[65], [66]] (fun _ => rfl)
    (.cons (by decide) (.cons (by decide) .nil))
  simpa using h

/-- C3 counterexample: an unparsable upstream frame yields exactly one
`error` event, but iteration does not continue — the following
`response.done` frame is never processed, so no `responseComplete` event
appears, contrary to the claim that iteration continues over subsequent
frames. -/
theorem listen_stops_after_parse_failure_cex :
    listen_for_events_loop
        [UpFrame.unparsable "Expecting value",
         UpFrame.frame ⟨some "response.done", "", "", ""⟩]
      = [Envelope.error "Expecting value"]
    ∧ Envelope.responseComplete ∉
        listen_for_events_loop
          [UpFrame.unparsable "Expecting value",
           UpFrame.frame ⟨some "response.done", "", "", ""⟩] := by
  exact ⟨rfl, by decide⟩

/-- C3 (amended): an upstream frame that fails to parse is reported as
exactly one `Error` event and the event sequence then terminates —
iteration does not continue over subsequent frames; a transport-level close
(exhausted input) also ends the sequence. -/
theorem listen_parse_failure_one_error_then_stop (msg : String)
    (rest : List UpFrame) :
    listen_for_events_loop (UpFrame.unparsable msg :: rest)
        = [Envelope.error msg]
    ∧ listen_for_events_loop [] = [] :=
  ⟨rfl, rfl⟩

/-- C4 counterexample: a malformed client frame does not get dropped with the
loop continuing — `handle_client` terminates with a fault and the valid
`audio_chunk` that follows is never forwarded, whereas the same chunk alone
produces a `send_audio` call. -/
theorem handle_client_malformed_stops_cex :
    handle_client demoDecode (fun _ => true)
        [ClientFrame.malformedJson, ClientFrame.audioChunk "A"] 0 0
      = ([], 0, ClientLoopExit.faulted)
    ∧ handle_client demoDecode (fun _ => true) [ClientFrame.audioChunk "A"] 0 0
      = ([UpCall.sendAudio [65]], 1, ClientLoopExit.disconnected) :=
  ⟨rfl, rfl⟩

/-- C4 (amended): a client frame that fails to decode (malformed JSON, or an
`audio_chunk` whose base64 payload fails to decode) terminates
`handle_client`'s read loop: the exception is caught by the handler outside
the loop, the handler returns, and no subsequent frame is processed. -/
theorem handle_client_decode_failure_stops (dec : String → Option Bytes)
    (upOk : Nat → Bool) (rest : List ClientFrame) (c k : Nat) (d : String)
    (hd : dec d = none) :
    handle_client dec upOk (ClientFrame.malformedJson :: rest) c k
        = ([], c, ClientLoopExit.faulted)
    ∧ handle_client dec upOk (ClientFrame.audioChunk d :: rest) c k
        = ([], c, ClientLoopExit.faulted) := by
  refine ⟨rfl, ?_⟩
  rw [handle_client, hd]

/-- C4 (amended) witness: both a malformed frame and an undecodable chunk
terminate the loop at once with no upstream calls. -/
theorem handle_client_decode_failure_stops_witness :
    handle_client demoDecode (fun _ => true)
        (ClientFrame.malformedJson :: [ClientFrame.audioComplete]) 0 0
      = ([], 0, ClientLoopExit.faulted)
    ∧ handle_client demoDecode (fun _ => true)
        (ClientFrame.audioChunk "bad" :: [ClientFrame.audioComplete]) 0 0
      = ([], 0, ClientLoopExit.faulted) :=
  handle_client_decode_failure_stops demoDecode (fun _ => true)
    [ClientFrame.audioComplete] 0 0 "bad" (by decide)

/-- C5: when the client-socket writes succeed, `handle_openai` writes exactly
one outbound envelope per event yielded by the upstream listen loop, in the
same relative order, with no reordering or batching. -/
theorem handle_openai_one_envelope_per_event (sendOk : Nat → Bool)
    (frames : List UpFrame) (hs : ∀ k, sendOk k = true) :
    handle_openai sendOk (listen_for_events_loop frames) 0
      = listen_for_events_loop frames :=
  handle_openai_all_ok sendOk hs (listen_for_events_loop frames) 0

/-- C5 witness: a `response.done` frame's yielded event is forwarded
verbatim. -/
theorem handle_openai_one_envelope_per_event_witness :
    handle_openai (fun _ => true)
        (listen_for_events_loop [UpFrame.frame ⟨some "response.done", "", "", ""⟩]) 0
      = listen_for_events_loop [UpFrame.frame ⟨some "response.done", "", "", ""⟩] :=
  handle_openai_one_envelope_per_event (fun _ => true)
    [UpFrame.frame ⟨some "response.done", "", "", ""⟩] (fun _ => rfl)

/-- C6 counterexample: a session whose client pipeline hits a mid-session
upstream transport fault (the first upstream send fails on a valid chunk)
ends with the client pipeline faulted, yet the client receives no error
envelope before the session closes — no frame at all is written. -/
theorem midsession_fault_no_error_envelope_cex :
    (websocket_endpoint demoDecode (fun _ => false) (fun _ => true) true
        [ClientFrame.audioChunk "A"] []).clientExit
      = some ClientLoopExit.faulted
    ∧ (websocket_endpoint demoDecode (fun _ => false) (fun _ => true) true
        [ClientFrame.audioChunk "A"] []).clientWrites = [] :=
  ⟨rfl, rfl⟩

/-- C6 (amended): after a successful connect, everything written to the
client comes from the upstream-forwarding pipeline; a fault detected in the
client-to-upstream pipeline is logged and swallowed, contributing no error
envelope before the session closes.  Only the connect-failure path (and
upstream read faults, surfaced as `Error` events and forwarded like any
other event) put an error envelope on the client socket. -/
theorem client_pipeline_fault_is_silent (dec : String → Option Bytes)
    (upOk sendOk : Nat → Bool) (clientFrames : List ClientFrame)
    (upFrames : List UpFrame) :
    (websocket_endpoint dec upOk sendOk true clientFrames upFrames).clientWrites
      = handle_openai sendOk (listen_for_events_loop upFrames) 0 :=
  rfl

/-- C7: when the upstream connect fails, the endpoint writes exactly one
error envelope, closes the client socket, and never starts either pipeline —
the session never reaches the active state. -/
theorem connect_failure_one_error_then_close (dec : String → Option Bytes)
    (upOk sendOk : Nat → Bool) (clientFrames : List ClientFrame)
    (upFrames : List UpFrame) :
    websocket_endpoint dec upOk sendOk false clientFrames upFrames =
      { clientWrites := [Envelope.error "Failed to connect to OpenAI Realtime API"]
        upstreamCalls := []
        clientExit := none
        pipelinesStarted := false
        clientClosed := true } :=
  rfl

/-- C8: an upstream frame whose event-type name is outside the recognized
set (or absent) yields no event, and iteration continues over the subsequent
frames unchanged. -/
theorem listen_unrecognized_yields_nothing (e : UpEvent) (rest : List UpFrame)
    (h : ∀ s, e.etype = some s → s ∉ recognizedEventTypes) :
    eventsOf e = []
    ∧ listen_for_events_loop (UpFrame.frame e :: rest)
        = listen_for_events_loop rest := by
  have he : eventsOf e = [] := by
    cases hety : e.etype with
    | none => simp [eventsOf, hety]
    | some s =>
      have hs := h s hety
      simp only [recognizedEventTypes, List.mem_cons, List.not_mem_nil,
        or_false, not_or] at hs
      obtain ⟨h1, h2, h3, h4, h5, h6, h7, h8, h9, h10, h11⟩ := hs
      simp [eventsOf, hety, h1, h2, h3, h4, h5, h6, h7, h8, h9, h10, h11]
  exact ⟨he, by simp [listen_for_events_loop, he]⟩

/-- C8 witness: the unrecognized name `response.created` yields nothing and
the following `response.done` frame is still processed. -/
theorem listen_unrecognized_yields_nothing_witness :
    eventsOf ⟨some "response.created", "", "", ""⟩ = []
    ∧ listen_for_events_loop
        [UpFrame.frame ⟨some "response.created", "", "", ""⟩,
         UpFrame.frame ⟨some "response.done", "", "", ""⟩]
      = listen_for_events_loop [UpFrame.frame ⟨some "response.done", "", "", ""⟩] :=
  listen_unrecognized_yields_nothing ⟨some "response.created", "", "", ""⟩
    [UpFrame.frame ⟨some "response.done", "", "", ""⟩]
    (fun s hs => by
      have h1 : s = "response.created" := (Option.some.inj hs).symm
      subst h1
      decide)

/-- C9: `disconnect` is idempotent — one call closes exactly the open handle
(if any) and leaves `ws` cleared and `is_connected` false; calling it again
(hence on a never-connected or already-closed client) closes nothing and
leaves that same cleared state. -/
theorem disconnect_idempotent (s : RTState) :
    (RealtimeService.disconnect s).1 = s.ws.toList
    ∧ (RealtimeService.disconnect s).2 = { ws := none, is_connected := false }
    ∧ RealtimeService.disconnect ((RealtimeService.disconnect s).2)
        = ([], { ws := none, is_connected := false }) := by
  cases h : s.ws <;> simp [RealtimeService.disconnect, h]

/-- C10: every send-side or listen operation invoked while `ws` is unset
raises `RuntimeError("Not connected")` instead of sending anything. -/
theorem not_connected_ops_raise (enc : Bytes → String) (s : RTState)
    (audio_bytes : Bytes) (text : String) (frames : List UpFrame)
    (h : s.ws = none) :
    RealtimeService.send_audio enc s audio_bytes = .error "Not connected"
    ∧ RealtimeService.commit_audio s = .error "Not connected"
    ∧ RealtimeService.create_conversation_item s text = .error "Not connected"
    ∧ RealtimeService.trigger_response s = .error "Not connected"
    ∧ RealtimeService.listen_for_events s frames = .error "Not connected" := by
  obtain ⟨ws, ic⟩ := s
  cases h
  exact ⟨rfl, rfl, rfl, rfl, rfl⟩

/-- C10 witness: on a fresh (never-connected) service every one of the five
operations raises `Not connected`. -/
theorem not_connected_ops_raise_witness :
    RealtimeService.send_audio (fun _ => "") RealtimeService.initState []
        = .error "Not connected"
    ∧ RealtimeService.commit_audio RealtimeService.initState
        = .error "Not connected"
    ∧ RealtimeService.create_conversation_item RealtimeService.initState "hello"
        = .error "Not connected"
    ∧ RealtimeService.trigger_response RealtimeService.initState
        = .error "Not connected"
    ∧ RealtimeService.listen_for_events RealtimeService.initState []
        = .error "Not connected" :=
  not_connected_ops_raise (fun _ => "") RealtimeService.initState [] "hello" [] rfl

end Propio
